import Mathlib

/-!
Shallow embedding of the PyCoLab authentication and session-issuance
subsystem (Express server `part_000` and the client handshake in
`src/App.tsx`), together with proofs of the specified properties.
-/

namespace PyCoLab

/-! ### JavaScript-style string helpers -/

/-- Boolean prefix test on character lists. -/
def isPrefL : List Char → List Char → Bool
  | [], _ => true
  | _ :: _, [] => false
  | a :: as, b :: bs => a == b && isPrefL as bs

/-- Boolean substring test (JavaScript `String.prototype.includes`). -/
def containsL (needle : List Char) : List Char → Bool
  | [] => needle.isEmpty
  | c :: t => isPrefL needle (c :: t) || containsL needle t

/-- JavaScript `s.includes(sub)`. -/
def strContains (s sub : String) : Bool := containsL sub.data s.data

/-- JavaScript `s.endsWith(suf)`. -/
def strEndsWith (s suf : String) : Bool := isPrefL suf.data.reverse s.data.reverse

/-- JavaScript falsiness of a `string | undefined` value:
`undefined` and the empty string are falsy. -/
def strFalsy : Option String → Bool
  | none => true
  | some s => s == ""

/-! ### Data model: the SQLite tables used by the auth core -/

/-- A row of the `users` table (`id TEXT PRIMARY KEY, email TEXT UNIQUE,
nickname TEXT, avatar_url TEXT`). -/
structure UserRow where
  id : String
  email : String
  nickname : String
  avatar_url : String
deriving DecidableEq

/-- The persistent store: the `users` table and the `admitted_users`
table (whose single data column is the `email` primary key). -/
structure Store where
  users : List UserRow
  admitted : List String
deriving DecidableEq

/-- Lookup `SELECT * FROM users WHERE email = ?` (first matching row). -/
def findUserByEmail (s : Store) (e : String) : Option UserRow :=
  s.users.find? (fun u => u.email == e)

/-- Lookup `SELECT ... FROM users WHERE id = ?` (first matching row). -/
def findUserById (s : Store) (uid : String) : Option UserRow :=
  s.users.find? (fun u => u.id == uid)

/-- Insert `INSERT INTO users (id, email, nickname, avatar_url) VALUES (?,?,?,?)`:
fails when the PRIMARY KEY on `id` or the UNIQUE constraint on `email`
is violated, leaving the table unchanged. -/
def insertUser (s : Store) (u : UserRow) : Except String Store :=
  if s.users.any (fun v => v.id == u.id || v.email == u.email) then
    Except.error "UNIQUE constraint failed: users"
  else
    Except.ok { s with users := s.users ++ [u] }

/-- Membership test `SELECT * FROM admitted_users WHERE email = ?`:
SQLite compares TEXT with the default BINARY collation, i.e. exact
string equality. -/
def isAdmitted (s : Store) (e : String) : Bool := s.admitted.contains e

/-! ### Admission management (`/api/admin/admitted` routes) -/

/-- Insert `INSERT INTO admitted_users (email) VALUES (?)`: fails when the
`email` primary key is already present. -/
def insertAdmitted (adm : List String) (e : String) : Except String (List String) :=
  if adm.contains e then Except.error "UNIQUE constraint failed: admitted_users.email"
  else Except.ok (adm ++ [e])

/-- POST `/api/admin/admitted`: 400 when the email is missing (falsy),
400 when the insert hits the uniqueness constraint, 200 otherwise.
Returns the HTTP status and the resulting table. -/
def admitEmail (adm : List String) (e : String) : Nat × List String :=
  if e == "" then (400, adm)
  else
    match insertAdmitted adm e with
    | Except.ok adm' => (200, adm')
    | Except.error _ => (400, adm)

/-- DELETE `/api/admin/admitted/:email`: unconditionally deletes the
matching row and answers 200, whether or not the row existed. -/
def revokeEmail (adm : List String) (e : String) : Nat × List String :=
  (200, adm.filter (fun x => !(x == e)))

/-! ### Admission bootstrap -/

/-- The operator-designated seed email inserted on first start. -/
def seedEmail : String := "config.shu@gmail.com"

/-- Sequential bootstrap: `SELECT COUNT(*) FROM admitted_users`, then
insert the seed email when the count is zero. -/
def bootstrapOnce (adm : List String) : List String :=
  if adm.isEmpty then
    match insertAdmitted adm seedEmail with
    | Except.ok adm' => adm'
    | Except.error _ => adm
  else adm

/-- One bootstrapping process, split at statement granularity:
`pc = 0` before the COUNT, `pc = 1` between COUNT and conditional
insert, `pc = 2` done. `sawEmpty` records the COUNT's outcome. -/
structure BootProc where
  pc : Nat
  sawEmpty : Bool
deriving DecidableEq

/-- Two bootstrapping processes sharing the `admitted_users` table. -/
structure BootConfig where
  a : BootProc
  b : BootProc
  adm : List String
deriving DecidableEq

/-- One statement of the bootstrap for one process: first the COUNT,
then (only if the count was zero) the seed insert, whose uniqueness
failure leaves the table unchanged. -/
def procStep (p : BootProc) (adm : List String) : BootProc × List String :=
  if p.pc = 0 then (⟨1, adm.isEmpty⟩, adm)
  else if p.pc = 1 then
    (⟨2, p.sawEmpty⟩,
      if p.sawEmpty then
        match insertAdmitted adm seedEmail with
        | Except.ok adm' => adm'
        | Except.error _ => adm
      else adm)
  else (p, adm)

/-- Scheduler step: `true` runs process `a`, `false` runs process `b`. -/
def schedStep (c : BootConfig) (pick : Bool) : BootConfig :=
  if pick then
    let r := procStep c.a c.adm
    ⟨r.1, c.b, r.2⟩
  else
    let r := procStep c.b c.adm
    ⟨c.a, r.1, r.2⟩

/-- Run a schedule of interleaved statements of the two bootstraps. -/
def runSched (sched : List Bool) (c : BootConfig) : BootConfig :=
  sched.foldl schedStep c

/-- Both processes at their start, over an empty `admitted_users` table. -/
def bootInit : BootConfig := ⟨⟨0, false⟩, ⟨0, false⟩, []⟩

/-! ### Session credential (jsonwebtoken usage) -/

/-- The fixed token lifetime: `expiresIn: "7d"`, in seconds. -/
def sevenDays : Nat := 7 * 24 * 60 * 60

/-- The claims carried by the signed token: exactly the object passed to
`jwt.sign`, plus the `exp` claim added by `expiresIn`. -/
structure SessionClaims where
  id : String
  email : String
  nickname : String
  avatar_url : String
  exp : Nat
deriving DecidableEq

/-- A signed token. The signature is modelled by recording the secret
the token was signed with: verification succeeds exactly for the same
secret. -/
structure SessionToken where
  claims : SessionClaims
  signedWith : String
deriving DecidableEq

/-- Signing `jwt.sign(payload, secret, \x7bexpiresIn: "7d"\x7d)`, with the `exp`
claim already folded into `claims`. -/
def jwtSign (c : SessionClaims) (secret : String) : SessionToken := ⟨c, secret⟩

/-- Verification `jwt.verify(token, secret)`: checks the signature and that the
token is not expired. -/
def jwtVerify (t : SessionToken) (secret : String) (now : Nat) : Option SessionClaims :=
  if t.signedWith == secret && decide (now < t.claims.exp) then some t.claims
  else none

/-- The `authenticate` middleware: 401 without a cookie, 401 on a
failed verification, otherwise the decoded claims become the request's
trusted identity. -/
def authenticate (cookie : Option SessionToken) (secret : String) (now : Nat) :
    Except Nat SessionClaims :=
  match cookie with
  | none => Except.error 401
  | some t =>
    match jwtVerify t secret now with
    | some c => Except.ok c
    | none => Except.error 401

/-- SessionIssuer's `issue`: the callback's `jwt.sign` call applied to
the fields of the user record being logged in. -/
def issueUser (u : UserRow) (secret : String) (now : Nat) : SessionToken :=
  jwtSign ⟨u.id, u.email, u.nickname, u.avatar_url, now + sevenDays⟩ secret

/-! ### User upsert (the upsert block of the OAuth callback) -/

/-- The profile data resolved from the provider (`/user` response). -/
structure GitHubUser where
  id : Nat
  login : String
  avatar_url : String
deriving DecidableEq

/-- The upsert block with its two statements made explicit: the lookup
runs against `sLook` and the insert against `sIns`. A concurrent writer
committing between the two statements is modelled by `sLook ≠ sIns`;
sequential execution is `sLook = sIns`. Returns the user record whose
fields feed `jwt.sign` plus the resulting store. -/
def upsertRace (sLook sIns : Store) (gh : GitHubUser) (email : String) :
    Except String (UserRow × Store) :=
  match findUserByEmail sLook email with
  | some u =>
    Except.ok (⟨u.id, email, if u.nickname == "" then gh.login else u.nickname,
      gh.avatar_url⟩, sIns)
  | none =>
    let row : UserRow := ⟨toString gh.id, email, gh.login, gh.avatar_url⟩
    match insertUser sIns row with
    | Except.ok s' => Except.ok (row, s')
    | Except.error msg => Except.error msg

/-- Sequential upsert: both statements run against the same store, as
in the single-threaded Node process. -/
def upsert (s : Store) (gh : GitHubUser) (email : String) :
    Except String (UserRow × Store) :=
  upsertRace s s gh email

/-! ### The OAuth callback handler -/

/-- One entry of the `/user/emails` response. -/
structure EmailEntry where
  email : String
  primary : Bool
deriving DecidableEq

/-- The request and provider-side inputs of one callback invocation:
the query string `code`, the configured client credentials, and the
outcomes of the three provider round trips. -/
structure CallbackInput where
  code : Option String
  clientId : Option String
  clientSecret : Option String
  accessToken : Option String
  ghUser : GitHubUser
  emails : List EmailEntry
deriving DecidableEq

/-- The body of the callback's HTTP response. -/
inductive Body where
  | missingCreds
  | deniedPage (email : String)
  | successPage
  | errorPage (msg : String)
deriving DecidableEq

/-- The observable outcome of one callback invocation: HTTP status,
the `auth_token` cookie if one was set, the store after the request,
and the response body. -/
structure CallbackOutput where
  status : Nat
  cookie : Option SessionToken
  store : Store
  body : Body
deriving DecidableEq

/-- Email selection `emails.find((e) => e.primary) || emails[0]`, then `?.email`. -/
def resolveEmail (emails : List EmailEntry) : Option String :=
  match emails.find? (fun e => e.primary) with
  | some x => some x.email
  | none => emails.head?.map (fun x => x.email)

/-- The `/api/auth/github/callback` handler. Order of checks follows the
source: missing code/credentials → 400 before the try block; missing
access token and unresolvable email → thrown errors caught as 500;
admission check → 403 page; upsert; `jwt.sign` and `res.cookie`.
A store error thrown inside the try block is caught by the same catch
and surfaced as 500, with no cookie set. -/
def githubCallback (secret : String) (inp : CallbackInput) (s : Store) (now : Nat) :
    CallbackOutput :=
  if strFalsy inp.code || strFalsy inp.clientId || strFalsy inp.clientSecret then
    ⟨400, none, s, Body.missingCreds⟩
  else if strFalsy inp.accessToken then
    ⟨500, none, s, Body.errorPage "Failed to get access token"⟩
  else
    match resolveEmail inp.emails with
    | none => ⟨500, none, s, Body.errorPage "No email found for GitHub user"⟩
    | some email =>
      if email == "" then ⟨500, none, s, Body.errorPage "No email found for GitHub user"⟩
      else if !(isAdmitted s email) then ⟨403, none, s, Body.deniedPage email⟩
      else
        match upsert s inp.ghUser email with
        | Except.error msg =>
          ⟨500, none, s, Body.errorPage ("Authentication failed: " ++ msg)⟩
        | Except.ok (u, s') => ⟨200, some (issueUser u secret now), s', Body.successPage⟩

/-- PUT `/api/users/me/nickname`: 400 for a missing or blank nickname,
otherwise `UPDATE users SET nickname = ? WHERE id = ?`. -/
def updateNickname (s : Store) (uid : String) (nickname : String) : Nat × Store :=
  if nickname == "" || nickname.trim == "" then (400, s)
  else
    (200, { s with
      users := s.users.map
        (fun u => if u.id == uid then { u with nickname := nickname } else u) })

/-! ### Client-side popup handshake (App.tsx) -/

/-- A cross-window message event: its origin and the `type` tag of its
payload (absent when the payload has no string `type`). -/
structure MessageEvent where
  origin : String
  dataType : Option String
deriving DecidableEq

/-- The origin pattern accepted by `handleMessage`: the application's
own host family, i.e. origins ending in `.run.app` or containing
`localhost`. -/
def acceptedOrigin (origin : String) : Bool :=
  strEndsWith origin ".run.app" || strContains origin "localhost"

/-- The primary window's `handleMessage` listener; `true` means the
authentication-success transition (re-fetching identity via
`fetchUser`) is taken. -/
def handleMessage (ev : MessageEvent) : Bool :=
  if !(strEndsWith ev.origin ".run.app") && !(strContains ev.origin "localhost") then
    false
  else
    ev.dataType == some "OAUTH_AUTH_SUCCESS"

/-! ### Derived notions shared by the theorems -/

/-- The provider interaction of one callback invocation succeeded and
resolved the verified email `e`: code and credentials present, an
access token obtained, and `e` selected (non-empty) from the email
list. -/
def resolutionOk (inp : CallbackInput) (e : String) : Prop :=
  strFalsy inp.code = false ∧ strFalsy inp.clientId = false ∧
  strFalsy inp.clientSecret = false ∧ strFalsy inp.accessToken = false ∧
  resolveEmail inp.emails = some e ∧ ¬(e = "")

/-- The upsert's write can be persisted: either a row for the email
already exists (no insert happens), or the insert violates no
constraint of the `users` table. -/
def canPersist (s : Store) (gh : GitHubUser) (e : String) : Bool :=
  (findUserByEmail s e).isSome ||
    !(s.users.any (fun v => v.id == toString gh.id || v.email == e))

/-! ### Theorems -/

/-- C7: the primary window's handshake listener takes the
authentication-success transition (re-fetching identity) exactly when
the message's origin matches the application's own host family (an
origin ending in `.run.app` or containing `localhost`) and the payload
tag is `OAUTH_AUTH_SUCCESS`; any message from an unexpected origin is
ignored outright, whatever its payload. -/
theorem handshake_origin_and_tag_gating (ev : MessageEvent) :
    handleMessage ev = true ↔
      (acceptedOrigin ev.origin = true ∧ ev.dataType = some "OAUTH_AUTH_SUCCESS") := by
  unfold handleMessage acceptedOrigin
  cases he : strEndsWith ev.origin ".run.app" <;>
    cases hc : strContains ev.origin "localhost" <;>
      simp [he, hc]

/-- Witness for C7: a localhost-origin success message takes the
transition. -/
theorem handshake_origin_and_tag_gating_witness :
    handleMessage ⟨"http://localhost:3000", some "OAUTH_AUTH_SUCCESS"⟩ = true :=
  (handshake_origin_and_tag_gating ⟨"http://localhost:3000", some "OAUTH_AUTH_SUCCESS"⟩).mpr
    ⟨by decide, rfl⟩

/-- C4: round-trip — validating a credential issued for user `u` (with
the same secret and before its expiry) succeeds and returns an identity
whose id, email, nickname and avatar fields equal exactly the fields of
`u` passed to `issue`. -/
theorem validate_issue_roundtrip (u : UserRow) (secret : String) (now now' : Nat)
    (h : now' < now + sevenDays) :
    authenticate (some (issueUser u secret now)) secret now' =
      Except.ok ⟨u.id, u.email, u.nickname, u.avatar_url, now + sevenDays⟩ := by
  simp [authenticate, issueUser, jwtSign, jwtVerify, h]

/-- Witness for C4 at a concrete user and clock. -/
theorem validate_issue_roundtrip_witness :
    authenticate (some (issueUser ⟨"7", "a@x.com", "nick", "av"⟩ "key" 0)) "key" 3 =
      Except.ok ⟨"7", "a@x.com", "nick", "av", 0 + sevenDays⟩ :=
  validate_issue_roundtrip ⟨"7", "a@x.com", "nick", "av"⟩ "key" 0 3 (by decide)

/-- C2: a login attempt whose resolved email is not admitted answers
with the 403 denial page naming that email, sets no cookie, and leaves
the store (in particular the `users` table) unchanged. -/
theorem denial_403_no_user_no_cookie (secret : String) (inp : CallbackInput)
    (s : Store) (now : Nat) (e : String) (hres : resolutionOk inp e)
    (hnot : isAdmitted s e = false) :
    githubCallback secret inp s now = ⟨403, none, s, Body.deniedPage e⟩ := by
  obtain ⟨h1, h2, h3, h4, h5, h6⟩ := hres
  have he : (e == "") = false := beq_eq_false_iff_ne.mpr h6
  unfold githubCallback
  simp [h1, h2, h3, h4, h5, he, hnot]

/-- Witness for C2: scenario B of the spec — only `a@x.com` admitted,
login resolves `b@x.com`. -/
theorem denial_403_no_user_no_cookie_witness :
    githubCallback "key"
        ⟨some "c", some "i", some "sec", some "t", ⟨7, "h", "av"⟩, [⟨"b@x.com", true⟩]⟩
        ⟨[], ["a@x.com"]⟩ 0 =
      ⟨403, none, ⟨[], ["a@x.com"]⟩, Body.deniedPage "b@x.com"⟩ :=
  denial_403_no_user_no_cookie "key"
    ⟨some "c", some "i", some "sec", some "t", ⟨7, "h", "av"⟩, [⟨"b@x.com", true⟩]⟩
    ⟨[], ["a@x.com"]⟩ 0 "b@x.com"
    ⟨rfl, rfl, rfl, rfl, rfl, by decide⟩ (by decide)

/-- C8 counterexample: with the authorization code absent (credentials
configured), the callback answers 400, not the claimed 500. -/
theorem missing_code_status_400_not_500 :
    (githubCallback "key"
        ⟨none, some "i", some "sec", some "t", ⟨1, "l", "a"⟩, [⟨"a@x.com", true⟩]⟩
        ⟨[], ["a@x.com"]⟩ 0).status = 400 ∧
    ¬((githubCallback "key"
        ⟨none, some "i", some "sec", some "t", ⟨1, "l", "a"⟩, [⟨"a@x.com", true⟩]⟩
        ⟨[], ["a@x.com"]⟩ 0).status = 500) := by
  decide

/-- C8 amended: when the provider client credentials or the
authorization code are absent (or empty), the callback fails before any
provider interaction with HTTP status 400 ("Missing code or
credentials"), setting no cookie and leaving the store unchanged. -/
theorem missing_creds_yield_400 (secret : String) (inp : CallbackInput) (s : Store)
    (now : Nat)
    (h : strFalsy inp.code = true ∨ strFalsy inp.clientId = true ∨
      strFalsy inp.clientSecret = true) :
    githubCallback secret inp s now = ⟨400, none, s, Body.missingCreds⟩ := by
  unfold githubCallback
  rcases h with h | h | h <;> simp [h]

/-- Witness for the amended C8 at a concrete input with no code. -/
theorem missing_creds_yield_400_witness :
    githubCallback "key"
        ⟨none, some "i", some "sec", some "t", ⟨1, "l", "a"⟩, [⟨"a@x.com", true⟩]⟩
        ⟨[], ["a@x.com"]⟩ 0 =
      ⟨400, none, ⟨[], ["a@x.com"]⟩, Body.missingCreds⟩ :=
  missing_creds_yield_400 "key"
    ⟨none, some "i", some "sec", some "t", ⟨1, "l", "a"⟩, [⟨"a@x.com", true⟩]⟩
    ⟨[], ["a@x.com"]⟩ 0 (Or.inl rfl)

/-- C6 counterexample: the state reached from an empty store by the
bootstrap followed by one revoke of the seed email is empty — the
admission set is not preserved non-empty by every reachable operation,
because the delete route removes the last entry unconditionally. -/
theorem revoke_empties_admitted :
    1 ≤ (bootstrapOnce []).length ∧
    (revokeEmail (bootstrapOnce []) seedEmail).2 = [] := by
  decide

/-- C6 amended: after initialization the admission set is non-empty
(the bootstrap seeds an empty store), and `admit` preserves
non-emptiness; `revoke`, however, is unguarded, and revoking the last
admitted email empties the set. -/
theorem bootstrap_and_admit_nonempty :
    (∀ adm : List String, 1 ≤ (bootstrapOnce adm).length) ∧
    (∀ (adm : List String) (e : String), 1 ≤ adm.length →
      1 ≤ (admitEmail adm e).2.length) := by
  constructor
  · intro adm
    unfold bootstrapOnce
    cases h : adm.isEmpty with
    | false => simpa [h] using List.length_pos.mpr (by simpa using h)
    | true =>
      have : adm = [] := List.isEmpty_iff.mp h
      subst this
      simp [insertAdmitted]
  · intro adm e h
    unfold admitEmail
    cases he : (e == "") with
    | true => simpa [he] using h
    | false =>
      simp only [he, Bool.false_eq_true, if_false]
      unfold insertAdmitted
      cases hc : adm.contains e with
      | true => simpa [hc] using h
      | false => simp [hc]

/-- Witness for the amended C6: bootstrapping the empty store and
admitting into a singleton store both yield non-empty sets. -/
theorem bootstrap_and_admit_nonempty_witness :
    1 ≤ (bootstrapOnce []).length ∧ 1 ≤ (admitEmail [seedEmail] "x@y.com").2.length :=
  ⟨bootstrap_and_admit_nonempty.1 [],
    bootstrap_and_admit_nonempty.2 [seedEmail] "x@y.com" (by decide)⟩

/-- C3: upsert is idempotent and the stored nickname is sticky — after
a first upsert returning `(u₁, s₁)`, a second upsert for the same email
(whatever handle, avatar or provider id the provider now reports)
returns a user with the same `id` and leaves the store exactly `s₁`, so
the nickname persisted at first creation is never changed by a later
login. -/
theorem upsert_idempotent_nickname_sticky (s : Store) (gh gh' : GitHubUser)
    (e : String) (u₁ : UserRow) (s₁ : Store)
    (h1 : upsert s gh e = Except.ok (u₁, s₁)) :
    ∃ u₂ : UserRow, upsert s₁ gh' e = Except.ok (u₂, s₁) ∧ u₂.id = u₁.id := by
  unfold upsert upsertRace at h1 ⊢
  cases hf : findUserByEmail s e with
  | some u =>
    rw [hf] at h1
    obtain ⟨hu, hs⟩ := Prod.mk.injEq .. ▸ Except.ok.inj h1
    subst hs
    refine ⟨_, by rw [hf], ?_⟩
    rw [← hu]
  | none =>
    rw [hf] at h1
    simp only [insertUser] at h1
    cases hc : s.users.any
        (fun v => v.id == toString gh.id || v.email == e) with
    | true => rw [hc] at h1; simp at h1
    | false =>
      rw [hc] at h1
      simp only [Bool.false_eq_true, if_false] at h1
      obtain ⟨hu, hs⟩ := Prod.mk.injEq .. ▸ Except.ok.inj h1
      have hfind : findUserByEmail s₁ e =
          some ⟨toString gh.id, e, gh.login, gh.avatar_url⟩ := by
        rw [← hs]
        unfold findUserByEmail at hf ⊢
        simp [List.find?_append, hf]
      rw [hfind]
      exact ⟨_, rfl, by rw [← hu]⟩

/-- Witness for C3: a fresh email is created, then looked up again with
a different handle. -/
theorem upsert_idempotent_nickname_sticky_witness :
    ∃ u₂ : UserRow,
      upsert ⟨[⟨"7", "a@x.com", "h1", "av"⟩], ["a@x.com"]⟩ ⟨9, "h2", "av2"⟩ "a@x.com" =
        Except.ok (u₂, ⟨[⟨"7", "a@x.com", "h1", "av"⟩], ["a@x.com"]⟩) ∧
      u₂.id = "7" :=
  upsert_idempotent_nickname_sticky ⟨[], ["a@x.com"]⟩ ⟨7, "h1", "av"⟩ ⟨9, "h2", "av2"⟩
    "a@x.com" ⟨"7", "a@x.com", "h1", "av"⟩ ⟨[⟨"7", "a@x.com", "h1", "av"⟩], ["a@x.com"]⟩
    rfl

/-- C9 counterexample: the email is absent at lookup time but a
concurrent writer has committed a row for it before the insert runs;
the upsert then returns no user at all (the constraint error
propagates) instead of falling back to reading the existing row. -/
theorem upsert_conflict_no_fallback :
    findUserByEmail ⟨[], ["a@x.com"]⟩ "a@x.com" = none ∧
    findUserByEmail ⟨[⟨"7", "a@x.com", "first", "av"⟩], ["a@x.com"]⟩ "a@x.com" =
      some ⟨"7", "a@x.com", "first", "av"⟩ ∧
    (upsertRace ⟨[], ["a@x.com"]⟩ ⟨[⟨"7", "a@x.com", "first", "av"⟩], ["a@x.com"]⟩
        ⟨7, "second", "av2"⟩ "a@x.com").toOption = none := by
  decide

/-- C9 amended: when the upsert's insert hits a uniqueness conflict
because a concurrent writer created the row between the lookup and the
insert, the operation does not fall back to a read — the constraint
error propagates (to the callback's catch-all, which surfaces it as a
500 authentication failure). -/
theorem upsert_conflict_propagates_error (sLook sIns : Store) (gh : GitHubUser)
    (e : String) (h1 : findUserByEmail sLook e = none)
    (h2 : sIns.users.any (fun v => v.id == toString gh.id || v.email == e) = true) :
    upsertRace sLook sIns gh e = Except.error "UNIQUE constraint failed: users" := by
  unfold upsertRace insertUser
  simp [h1, h2]

/-- Witness for the amended C9 at the concrete race of the
counterexample. -/
theorem upsert_conflict_propagates_error_witness :
    upsertRace ⟨[], ["a@x.com"]⟩ ⟨[⟨"7", "a@x.com", "first", "av"⟩], ["a@x.com"]⟩
        ⟨7, "second", "av2"⟩ "a@x.com" =
      Except.error "UNIQUE constraint failed: users" :=
  upsert_conflict_propagates_error ⟨[], ["a@x.com"]⟩
    ⟨[⟨"7", "a@x.com", "first", "av"⟩], ["a@x.com"]⟩ ⟨7, "second", "av2"⟩ "a@x.com"
    (by decide) (by decide)

/-- C1 counterexample: the resolved email `b@x.com` is admitted, yet the
login fails (500, no cookie): the provider id `42` already keys a user
row persisted under a different email, so the insert violates the
`users.id` primary key and the callback's catch-all answers 500 —
refuting "login succeeds iff the email is admitted". -/
theorem login_admitted_but_id_conflict_500 :
    isAdmitted ⟨[⟨"42", "a@x.com", "nick", "av"⟩], ["a@x.com", "b@x.com"]⟩ "b@x.com" =
      true ∧
    resolveEmail [⟨"b@x.com", true⟩] = some "b@x.com" ∧
    (githubCallback "key"
        ⟨some "c", some "i", some "sec", some "t", ⟨42, "login42", "av2"⟩,
          [⟨"b@x.com", true⟩]⟩
        ⟨[⟨"42", "a@x.com", "nick", "av"⟩], ["a@x.com", "b@x.com"]⟩ 0).cookie = none ∧
    (githubCallback "key"
        ⟨some "c", some "i", some "sec", some "t", ⟨42, "login42", "av2"⟩,
          [⟨"b@x.com", true⟩]⟩
        ⟨[⟨"42", "a@x.com", "nick", "av"⟩], ["a@x.com", "b@x.com"]⟩ 0).status = 500 := by
  decide

/-- C1 amended: for a login attempt whose provider interaction resolves
email `e`, a session cookie is issued iff `e` is present in the
admission store (exact string match) and the user record can be
persisted — i.e. a row for `e` already exists, or inserting the new row
violates no `users` constraint; when `e` is admitted but the insert
hits the primary-key conflict, the login fails with no cookie. -/
theorem login_cookie_iff_admitted_and_persistable (secret : String)
    (inp : CallbackInput) (s : Store) (now : Nat) (e : String)
    (hres : resolutionOk inp e) :
    (githubCallback secret inp s now).cookie.isSome =
      (isAdmitted s e && canPersist s inp.ghUser e) := by
  obtain ⟨h1, h2, h3, h4, h5, h6⟩ := hres
  have he : (e == "") = false := beq_eq_false_iff_ne.mpr h6
  unfold githubCallback
  simp only [h1, h2, h3, h4, h5, he, Bool.false_or, Bool.or_self, Bool.false_eq_true,
    if_false]
  cases hadm : isAdmitted s e with
  | false => simp [hadm]
  | true =>
    simp only [hadm, Bool.not_true, Bool.false_eq_true, if_false, Bool.true_and]
    unfold upsert upsertRace canPersist insertUser
    cases hf : findUserByEmail s e with
    | some u => simp [hf]
    | none =>
      simp only [hf, Option.isSome_none, Bool.false_or]
      cases hc : s.users.any (fun v => v.id == toString inp.ghUser.id || v.email == e) with
      | true => simp [hc]
      | false => simp [hc]

/-- Witness for the amended C1: a fresh admitted email on a fresh store
yields a cookie, matching the right-hand side. -/
theorem login_cookie_iff_admitted_and_persistable_witness :
    (githubCallback "key"
        ⟨some "c", some "i", some "sec", some "t", ⟨7, "h", "av"⟩, [⟨"a@x.com", true⟩]⟩
        ⟨[], ["a@x.com"]⟩ 0).cookie.isSome =
      (isAdmitted ⟨[], ["a@x.com"]⟩ "a@x.com" &&
        canPersist ⟨[], ["a@x.com"]⟩ ⟨7, "h", "av"⟩ "a@x.com") :=
  login_cookie_iff_admitted_and_persistable "key"
    ⟨some "c", some "i", some "sec", some "t", ⟨7, "h", "av"⟩, [⟨"a@x.com", true⟩]⟩
    ⟨[], ["a@x.com"]⟩ 0 "a@x.com" ⟨rfl, rfl, rfl, rfl, rfl, by decide⟩

/-- C5 counterexample: an already-registered user logs in again while
the provider reports a new avatar; the issued credential's avatar claim
is the provider's current value, not the persisted row's — so the
claims are not a snapshot of the User row as persisted at issuance. -/
theorem credential_not_row_snapshot_avatar :
    ((githubCallback "key"
        ⟨some "c", some "i", some "sec", some "t", ⟨42, "newhandle", "new"⟩,
          [⟨"a@x.com", true⟩]⟩
        ⟨[⟨"42", "a@x.com", "nick", "old"⟩], ["a@x.com"]⟩ 0).cookie.map
      (fun t => t.claims.avatar_url)) = some "new" ∧
    ((findUserByEmail
        (githubCallback "key"
          ⟨some "c", some "i", some "sec", some "t", ⟨42, "newhandle", "new"⟩,
            [⟨"a@x.com", true⟩]⟩
          ⟨[⟨"42", "a@x.com", "nick", "old"⟩], ["a@x.com"]⟩ 0).store "a@x.com").map
      (fun u => u.avatar_url)) = some "old" ∧
    ¬(("new" : String) = "old") := by
  decide

/-- C5 amended: a credential issued for an admitted login of an
already-persisted user carries as claims the row's `id`, the resolved
email, the row's persisted (non-empty) nickname, the provider's current
avatar (not the stored one), and expiry exactly seven days after
issuance; and the credential validates to exactly those issuance-time
claims at every pre-expiry instant — validation never consults the
store, so no later store change (such as a nickname update) alters an
already-issued credential. -/
theorem credential_snapshot_and_immutable (secret : String) (inp : CallbackInput)
    (s : Store) (now : Nat) (e : String) (u : UserRow) (hres : resolutionOk inp e)
    (hadm : isAdmitted s e = true) (hfound : findUserByEmail s e = some u)
    (hnick : ¬(u.nickname = "")) :
    (githubCallback secret inp s now).cookie =
      some (jwtSign ⟨u.id, e, u.nickname, inp.ghUser.avatar_url, now + sevenDays⟩
        secret) ∧
    ∀ now' : Nat, now' < now + sevenDays →
      authenticate
          (some (jwtSign ⟨u.id, e, u.nickname, inp.ghUser.avatar_url, now + sevenDays⟩
            secret)) secret now' =
        Except.ok ⟨u.id, e, u.nickname, inp.ghUser.avatar_url, now + sevenDays⟩ := by
  obtain ⟨h1, h2, h3, h4, h5, h6⟩ := hres
  have he : (e == "") = false := beq_eq_false_iff_ne.mpr h6
  have hn : (u.nickname == "") = false := beq_eq_false_iff_ne.mpr hnick
  constructor
  · unfold githubCallback upsert upsertRace
    simp [h1, h2, h3, h4, h5, he, hadm, hfound, hn, issueUser, jwtSign]
  · intro now' hlt
    simp [authenticate, jwtVerify, jwtSign, hlt]

/-- Witness for the amended C5 at the counterexample's concrete state:
the cookie is the issuance-time snapshot and still validates to it one
second later. -/
theorem credential_snapshot_and_immutable_witness :
    (githubCallback "key"
        ⟨some "c", some "i", some "sec", some "t", ⟨42, "newhandle", "new"⟩,
          [⟨"a@x.com", true⟩]⟩
        ⟨[⟨"42", "a@x.com", "nick", "old"⟩], ["a@x.com"]⟩ 0).cookie =
      some (jwtSign ⟨"42", "a@x.com", "nick", "new", 0 + sevenDays⟩ "key") ∧
    authenticate (some (jwtSign ⟨"42", "a@x.com", "nick", "new", 0 + sevenDays⟩ "key"))
        "key" 1 =
      Except.ok ⟨"42", "a@x.com", "nick", "new", 0 + sevenDays⟩ := by
  have h := credential_snapshot_and_immutable "key"
    ⟨some "c", some "i", some "sec", some "t", ⟨42, "newhandle", "new"⟩,
      [⟨"a@x.com", true⟩]⟩
    ⟨[⟨"42", "a@x.com", "nick", "old"⟩], ["a@x.com"]⟩ 0 "a@x.com"
    ⟨"42", "a@x.com", "nick", "old"⟩ ⟨rfl, rfl, rfl, rfl, rfl, by decide⟩
    (by decide) (by decide) (by decide)
  exact ⟨h.1, h.2 1 (by decide)⟩

/-- Invariant of the two-process bootstrap run from an empty store: the
table holds nothing or exactly the seed; a process that saw a non-empty
table can only have seen the seeded one; a finished process that saw an
empty table has seeded it (or lost the race to the seed row). -/
def BootInv (c : BootConfig) : Prop :=
  (c.adm = [] ∨ c.adm = [seedEmail]) ∧
  (1 ≤ c.a.pc → c.a.sawEmpty = false → c.adm = [seedEmail]) ∧
  (c.a.pc = 2 → c.a.sawEmpty = true → c.adm = [seedEmail]) ∧
  (1 ≤ c.b.pc → c.b.sawEmpty = false → c.adm = [seedEmail]) ∧
  (c.b.pc = 2 → c.b.sawEmpty = true → c.adm = [seedEmail])

lemma procStep_inv (p q : BootProc) (adm : List String)
    (hadm : adm = [] ∨ adm = [seedEmail])
    (hp1 : 1 ≤ p.pc → p.sawEmpty = false → adm = [seedEmail])
    (hp2 : p.pc = 2 → p.sawEmpty = true → adm = [seedEmail])
    (hq1 : 1 ≤ q.pc → q.sawEmpty = false → adm = [seedEmail])
    (hq2 : q.pc = 2 → q.sawEmpty = true → adm = [seedEmail]) :
    ((procStep p adm).2 = [] ∨ (procStep p adm).2 = [seedEmail]) ∧
    (1 ≤ (procStep p adm).1.pc → (procStep p adm).1.sawEmpty = false →
      (procStep p adm).2 = [seedEmail]) ∧
    ((procStep p adm).1.pc = 2 → (procStep p adm).1.sawEmpty = true →
      (procStep p adm).2 = [seedEmail]) ∧
    (1 ≤ q.pc → q.sawEmpty = false → (procStep p adm).2 = [seedEmail]) ∧
    (q.pc = 2 → q.sawEmpty = true → (procStep p adm).2 = [seedEmail]) := by
  by_cases h0 : p.pc = 0
  · simp only [procStep, h0, if_true, if_pos rfl]
    refine ⟨hadm, ?_, ?_, hq1, hq2⟩
    · intro _ hse
      rcases hadm with h | h
      · subst h; simp at hse
      · exact h
    · intro h2; omega
  · by_cases h1 : p.pc = 1
    · cases hs : p.sawEmpty with
      | false =>
        simp only [procStep, h0, if_false, h1, if_true, hs, if_pos rfl,
          Bool.false_eq_true]
        have hseed : adm = [seedEmail] := hp1 (by omega) hs
        exact ⟨hadm, fun _ _ => hseed, by simp, fun _ _ => hseed, fun _ _ => hseed⟩
      | true =>
        have hseed : (procStep p adm).2 = [seedEmail] := by
          simp only [procStep, h0, h1, hs, if_true, if_false, if_pos rfl]
          rcases hadm with h | h <;> subst h <;> simp [insertAdmitted, seedEmail]
        refine ⟨Or.inr hseed, fun _ _ => hseed, fun _ _ => hseed,
          fun _ _ => hseed, fun _ _ => hseed⟩
    · have hstep : procStep p adm = (p, adm) := by
        simp [procStep, h0, h1]
      rw [hstep]
      exact ⟨hadm, hp1, hp2, hq1, hq2⟩

lemma bootInv_schedStep (c : BootConfig) (pick : Bool) (h : BootInv c) :
    BootInv (schedStep c pick) := by
  obtain ⟨hadm, ha1, ha2, hb1, hb2⟩ := h
  cases pick with
  | true =>
    have h := procStep_inv c.a c.b c.adm hadm ha1 ha2 hb1 hb2
    simpa only [BootInv, schedStep, if_true, if_pos rfl] using
      ⟨h.1, h.2.1, h.2.2.1, h.2.2.2.1, h.2.2.2.2⟩
  | false =>
    have h := procStep_inv c.b c.a c.adm hadm hb1 hb2 ha1 ha2
    simpa only [BootInv, schedStep, Bool.false_eq_true, if_false] using
      ⟨h.1, h.2.2.2.1, h.2.2.2.2, h.2.1, h.2.2.1⟩

lemma bootInv_runSched (sched : List Bool) (c : BootConfig) (h : BootInv c) :
    BootInv (runSched sched c) := by
  induction sched generalizing c with
  | nil => exact h
  | cons pick rest ih =>
    simpa only [runSched, List.foldl] using ih (schedStep c pick)
      (bootInv_schedStep c pick h)

/-- C10: under every interleaving of the two bootstraps' statements
over an initially empty admitted store, once both processes have
finished the store holds exactly the one seed row — the racing
duplicate insert targets the same primary-key email and therefore
fails without creating a second row. -/
theorem concurrent_bootstrap_single_seed (sched : List Bool)
    (h : (runSched sched bootInit).a.pc = 2 ∧ (runSched sched bootInit).b.pc = 2) :
    (runSched sched bootInit).adm = [seedEmail] ∧
      (runSched sched bootInit).adm.length = 1 := by
  have hinv := bootInv_runSched sched bootInit
    ⟨Or.inl rfl, by intro h _; simp [bootInit] at h, by intro h; simp [bootInit] at h,
      by intro h _; simp [bootInit] at h, by intro h; simp [bootInit] at h⟩
  obtain ⟨hadm, ha1, ha2, hb1, hb2⟩ := hinv
  have hseed : (runSched sched bootInit).adm = [seedEmail] := by
    cases hs : (runSched sched bootInit).a.sawEmpty with
    | true => exact ha2 h.1 hs
    | false => exact ha1 (by omega) hs
  exact ⟨hseed, by rw [hseed]; rfl⟩

/-- Witness for C10: the fully racing schedule (both COUNTs before both
inserts) completes both processes and leaves exactly the seed row. -/
theorem concurrent_bootstrap_single_seed_witness :
    (runSched [true, false, true, false] bootInit).adm = [seedEmail] ∧
      (runSched [true, false, true, false] bootInit).adm.length = 1 :=
  concurrent_bootstrap_single_seed [true, false, true, false] (by decide)

end PyCoLab
